import Mathlib

/-!
Verification of the `BIP39KeyManagementService` wrapper
(`packages/core/src/modules/kms/bip39/BIP39KeyManagementService.ts`).

The service wraps an existing key-management backend.  A `createKey`
request for an EC/P-256 key with `p256Options` is answered by a
deterministic derivation through the `dp256` library; every other
request, and every other operation, is delegated to the wrapped backend.

The embedding is shallow: the wrapped backend is an explicit record of
state-passing operations, the external `dp256` library is a record of
(fallible) functions, and the wrapper's methods are pure Lean functions
that additionally return the list of backend methods they invoked, so
that "no backend call is made" is a statement about the embedding.
-/

namespace Credo.BIP39

/-- The `type` field of a create-key request: JWK key type and optional
curve, as in `KmsCreateKeyType` (`options.type.kty`, `options.type.crv`). -/
structure KmsCreateKeyType where
  kty : String
  crv : Option String
deriving DecidableEq, Repr

/-- `DeterministicP256Options` from the source: mnemonic, WebAuthn origin,
user handle, and an optional counter for multiple keys. -/
structure DeterministicP256Options where
  mnemonic : String
  origin : String
  userHandle : String
  counter : Option Int
deriving DecidableEq, Repr

/-- `BIP39CreateKeyOptions`: Credo's create-key options extended with the
optional `p256Options` derivation context. -/
structure BIP39CreateKeyOptions where
  type : KmsCreateKeyType
  p256Options : Option DeterministicP256Options
deriving DecidableEq, Repr

/-- Public JWK as produced by the service (`kty`, `crv`, coordinates and
key id). -/
structure KmsJwkPublic where
  kty : String
  crv : Option String
  x : Option String
  y : Option String
  kid : Option String
deriving DecidableEq, Repr

/-- Return value of `createKey`: the key id and the public JWK. -/
structure KmsCreateKeyReturn where
  keyId : String
  publicJwk : KmsJwkPublic
deriving DecidableEq, Repr

/-- Opaque payloads for the delegated operations.  Their internal shape is
irrelevant to the wrapper, which forwards them untouched. -/
structure KmsImportKeyOptions where
  raw : String
deriving DecidableEq, Repr

structure KmsImportKeyReturn where
  raw : String
deriving DecidableEq, Repr

structure KmsDeleteKeyOptions where
  keyId : String
deriving DecidableEq, Repr

structure KmsRandomBytesOptions where
  length : Nat
deriving DecidableEq, Repr

structure KmsSignOptions where
  raw : String
deriving DecidableEq, Repr

structure KmsSignReturn where
  signature : List Nat
deriving DecidableEq, Repr

structure KmsVerifyOptions where
  raw : String
deriving DecidableEq, Repr

structure KmsVerifyReturn where
  verified : Bool
deriving DecidableEq, Repr

structure KmsEncryptOptions where
  raw : String
deriving DecidableEq, Repr

structure KmsEncryptReturn where
  encrypted : List Nat
deriving DecidableEq, Repr

structure KmsDecryptOptions where
  raw : String
deriving DecidableEq, Repr

structure KmsDecryptReturn where
  data : List Nat
deriving DecidableEq, Repr

/-- The wrapped pre-existing key-management backend, modelled as a record
of state-passing operations over an abstract state type `σ`.  Each
operation returns its result together with the backend's next state. -/
structure WrappedKms (σ : Type) where
  createKey : σ → BIP39CreateKeyOptions → (Except String KmsCreateKeyReturn) × σ
  getPublicKey : σ → String → (Option KmsJwkPublic) × σ
  importKey : σ → KmsImportKeyOptions → KmsImportKeyReturn × σ
  deleteKey : σ → KmsDeleteKeyOptions → Bool × σ
  randomBytes : σ → KmsRandomBytesOptions → (List Nat) × σ
  sign : σ → KmsSignOptions → KmsSignReturn × σ
  verify : σ → KmsVerifyOptions → KmsVerifyReturn × σ
  encrypt : σ → KmsEncryptOptions → KmsEncryptReturn × σ
  decrypt : σ → KmsDecryptOptions → KmsDecryptReturn × σ

/-- The external `@algorandfoundation/dp256` library: deterministic
functions (they are Lean functions, hence the same inputs always give the
same outputs); the two derivation steps may fail, which the wrapper's
`try`/`catch` turns into a `CredoError`. -/
structure DP256 where
  genDerivedMainKeyWithBIP39 : String → Except String (List Nat)
  genDomainSpecificKeyPair : List Nat → String → String → Int → Except String (List Nat)
  getPurePKBytes : List Nat → List Nat

/-! ### Decimal printing

The key id interpolates the JavaScript number `counter` into a template
literal.  `natToDigitsAux`/`intToString` embed the decimal conversion a
template literal performs on an integral number. -/

/-- Fuel-indexed most-significant-digit-first decimal printer. -/
def natToDigitsAux : Nat → Nat → List Char → List Char
  | 0, _, acc => acc
  | fuel + 1, n, acc =>
    if n < 10 then Nat.digitChar n :: acc
    else natToDigitsAux fuel (n / 10) (Nat.digitChar (n % 10) :: acc)

/-- Decimal digit list of a natural number. -/
def natToDigits (n : Nat) : List Char :=
  natToDigitsAux (n + 1) n []

/-- Decimal string of an integer, as JavaScript template-literal
interpolation renders an integral number (`-` sign for negatives). -/
def intToString (i : Int) : String :=
  if i < 0 then String.mk ('-' :: natToDigits i.natAbs)
  else String.mk (natToDigits i.toNat)

/-! ### Base64url

Modelled from the spec: the repository's `base64ToBase64URL` and `Buffer`
`base64` encoding helpers live outside the provided sources; per the
spec, `x`/`y` carry "the base64url encoding" of the coordinate bytes
(RFC 4648 §5 alphabet, unpadded). -/

/-- Modelled from the spec: the base64url alphabet character for a 6-bit
value (the repository's base64 helper is not among the provided sources). -/
def b64UrlChar (n : Nat) : Char :=
  "ABCDEFGHIJKLMNOPQRSTUVWXYZabcdefghijklmnopqrstuvwxyz0123456789-_".data.getD n 'A'

/-- Modelled from the spec: unpadded base64url encoding of a byte list
(the repository's `Buffer`/`base64ToBase64URL` helpers are not among the
provided sources; the spec calls `x`/`y` "the base64url encoding" of the
coordinate bytes). -/
def base64UrlEncode : List Nat → List Char
  | [] => []
  | [b1] => [b64UrlChar (b1 / 4), b64UrlChar (b1 % 4 * 16)]
  | [b1, b2] =>
    [b64UrlChar (b1 / 4), b64UrlChar (b1 % 4 * 16 + b2 / 16), b64UrlChar (b2 % 16 * 4)]
  | b1 :: b2 :: b3 :: rest =>
    b64UrlChar (b1 / 4) :: b64UrlChar (b1 % 4 * 16 + b2 / 16) ::
      b64UrlChar (b2 % 16 * 4 + b3 / 64) :: b64UrlChar (b3 % 64) :: base64UrlEncode rest

/-- The deterministic key identifier built at line 110 of the source:
`p256-${origin}-${userHandle}-${counter}`. -/
def keyIdFor (origin userHandle : String) (counter : Int) : String :=
  "p256-" ++ origin ++ "-" ++ userHandle ++ "-" ++ intToString counter

/-- `createDeterministicP256Key`: derives the main key from the mnemonic,
the domain-specific key pair from (origin, userHandle, counter) with the
counter defaulting to `0`, splits the 64 public-key bytes into the `x`
and `y` halves, and returns the record; any failure inside the `try`
block becomes a `Failed to generate deterministic P-256 passkey` error. -/
def createDeterministicP256Key (dp256 : DP256) (options : BIP39CreateKeyOptions) :
    Except String KmsCreateKeyReturn :=
  match options.p256Options with
  | none => .error "p256Options required for deterministic P-256 key generation"
  | some opts =>
    let counter := opts.counter.getD 0
    match dp256.genDerivedMainKeyWithBIP39 opts.mnemonic with
    | .error e => .error ("Failed to generate deterministic P-256 passkey: " ++ e)
    | .ok mainKey =>
      match dp256.genDomainSpecificKeyPair mainKey opts.origin opts.userHandle counter with
      | .error e => .error ("Failed to generate deterministic P-256 passkey: " ++ e)
      | .ok privateKey =>
        let publicKeyBytes := dp256.getPurePKBytes privateKey
        let keyId := keyIdFor opts.origin opts.userHandle counter
        .ok
          { keyId := keyId
            publicJwk :=
              { kty := "EC"
                crv := some "P-256"
                x := some (String.mk (base64UrlEncode (publicKeyBytes.take 32)))
                y := some (String.mk (base64UrlEncode ((publicKeyBytes.drop 32).take 32)))
                kid := some keyId } }

/-- The wrapper's `createKey` router: an EC/P-256 request must carry
`p256Options` (otherwise a `CredoError` is thrown) and is answered by the
deterministic path without touching the backend; any other request is
delegated to the wrapped KMS.  The result carries the backend's next
state and the list of backend methods invoked. -/
def createKey {σ : Type} (kms : WrappedKms σ) (dp256 : DP256) (s : σ)
    (options : BIP39CreateKeyOptions) :
    (Except String KmsCreateKeyReturn) × σ × List String :=
  if options.type.kty = "EC" ∧ options.type.crv = some "P-256" then
    match options.p256Options with
    | none => (.error "p256Options required for deterministic P-256 key generation", s, [])
    | some _ => (createDeterministicP256Key dp256 options, s, [])
  else
    let r := kms.createKey s options
    (r.1, r.2, ["createKey"])

/-- Pass-through `getPublicKey` (line 139). -/
def getPublicKey {σ : Type} (kms : WrappedKms σ) (s : σ) (keyId : String) :
    (Option KmsJwkPublic) × σ :=
  kms.getPublicKey s keyId

/-- Pass-through `importKey` (line 143). -/
def importKey {σ : Type} (kms : WrappedKms σ) (s : σ) (options : KmsImportKeyOptions) :
    KmsImportKeyReturn × σ :=
  kms.importKey s options

/-- Pass-through `deleteKey` (line 147). -/
def deleteKey {σ : Type} (kms : WrappedKms σ) (s : σ) (options : KmsDeleteKeyOptions) :
    Bool × σ :=
  kms.deleteKey s options

/-- Pass-through `randomBytes` (line 151). -/
def randomBytes {σ : Type} (kms : WrappedKms σ) (s : σ) (options : KmsRandomBytesOptions) :
    (List Nat) × σ :=
  kms.randomBytes s options

/-- Pass-through `sign` (line 155). -/
def sign {σ : Type} (kms : WrappedKms σ) (s : σ) (options : KmsSignOptions) :
    KmsSignReturn × σ :=
  kms.sign s options

/-- Pass-through `verify` (line 159). -/
def verify {σ : Type} (kms : WrappedKms σ) (s : σ) (options : KmsVerifyOptions) :
    KmsVerifyReturn × σ :=
  kms.verify s options

/-- Pass-through `encrypt` (line 163). -/
def encrypt {σ : Type} (kms : WrappedKms σ) (s : σ) (options : KmsEncryptOptions) :
    KmsEncryptReturn × σ :=
  kms.encrypt s options

/-- Pass-through `decrypt` (line 167). -/
def decrypt {σ : Type} (kms : WrappedKms σ) (s : σ) (options : KmsDecryptOptions) :
    KmsDecryptReturn × σ :=
  kms.decrypt s options

/-- `supportsKeyType` returns `true` unconditionally (line 66); the
declared parameters of the interface method are ignored, as is the
wrapped backend. -/
def supportsKeyType {σ : Type} (_kms : WrappedKms σ) (_keyType : KmsCreateKeyType) : Bool :=
  true

/-- `isOperationSupported` returns `true` unconditionally (line 70). -/
def isOperationSupported {σ : Type} (_kms : WrappedKms σ) (_operation : String) : Bool :=
  true

/-- The service's `backend` field: the constant `'BIP39P256'` (line 62),
whatever backend is wrapped. -/
def backendName {σ : Type} (_kms : WrappedKms σ) : String :=
  "BIP39P256"

/-! ### Lemmas about the decimal printer -/

/-- Reference (fuel-free) form of the decimal printer, used in proofs. -/
def natToDigitsSpec (n : Nat) : List Char :=
  if _h : n < 10 then [Nat.digitChar n]
  else natToDigitsSpec (n / 10) ++ [Nat.digitChar (n % 10)]
termination_by n
decreasing_by exact Nat.div_lt_self (by omega) (by omega)

lemma natToDigitsAux_eq_spec :
    ∀ (fuel n : Nat) (acc : List Char), n < fuel →
      natToDigitsAux fuel n acc = natToDigitsSpec n ++ acc := by
  intro fuel
  induction fuel with
  | zero => intro n acc h; omega
  | succ f ih =>
    intro n acc h
    by_cases h10 : n < 10
    · simp only [natToDigitsAux, if_pos h10]
      rw [natToDigitsSpec, dif_pos h10]
      rfl
    · simp only [natToDigitsAux, if_neg h10]
      rw [ih (n / 10) _ (by omega)]
      conv_rhs => rw [natToDigitsSpec]
      rw [dif_neg h10, List.append_assoc]
      rfl

lemma natToDigits_eq_spec (n : Nat) : natToDigits n = natToDigitsSpec n := by
  have h := natToDigitsAux_eq_spec (n + 1) n [] (by omega)
  simpa [natToDigits] using h

/-- Numeric value of a decimal digit character. -/
def digitVal (c : Char) : Nat := c.toNat - 48

/-- Numeric value of a most-significant-first digit list. -/
def digitsVal (l : List Char) : Nat :=
  l.foldl (fun a c => a * 10 + digitVal c) 0

lemma digitsVal_append (l : List Char) (c : Char) :
    digitsVal (l ++ [c]) = digitsVal l * 10 + digitVal c := by
  simp [digitsVal, List.foldl_append]

lemma digitVal_digitChar {d : Nat} (h : d < 10) : digitVal (Nat.digitChar d) = d := by
  have hall : ∀ d : Nat, d < 10 → digitVal (Nat.digitChar d) = d := by decide
  exact hall d h

lemma digitsVal_natToDigitsSpec (n : Nat) : digitsVal (natToDigitsSpec n) = n := by
  induction n using Nat.strong_induction_on with
  | _ n ih =>
    rw [natToDigitsSpec]
    by_cases h : n < 10
    · rw [dif_pos h]
      simpa [digitsVal] using digitVal_digitChar h
    · rw [dif_neg h, digitsVal_append, ih (n / 10) (by omega),
        digitVal_digitChar (by omega : n % 10 < 10)]
      omega

lemma natToDigits_inj {m n : Nat} (h : natToDigits m = natToDigits n) : m = n := by
  rw [natToDigits_eq_spec, natToDigits_eq_spec] at h
  rw [← digitsVal_natToDigitsSpec m, ← digitsVal_natToDigitsSpec n, h]

lemma digitChar_ne_dash : ∀ d : Nat, d < 10 → Nat.digitChar d ≠ '-' := by decide

lemma dash_not_mem_natToDigitsSpec (n : Nat) : '-' ∉ natToDigitsSpec n := by
  induction n using Nat.strong_induction_on with
  | _ n ih =>
    rw [natToDigitsSpec]
    by_cases h : n < 10
    · rw [dif_pos h]
      intro hmem
      simp only [List.mem_singleton] at hmem
      exact digitChar_ne_dash n h hmem.symm
    · rw [dif_neg h]
      intro hmem
      rcases List.mem_append.mp hmem with h1 | h2
      · exact ih (n / 10) (by omega) h1
      · simp only [List.mem_singleton] at h2
        exact digitChar_ne_dash (n % 10) (by omega) h2.symm

lemma dash_not_mem_natToDigits (n : Nat) : '-' ∉ natToDigits n := by
  rw [natToDigits_eq_spec]
  exact dash_not_mem_natToDigitsSpec n

/-- Splitting at a separator character that occurs in neither prefix is
unambiguous. -/
lemma append_sep_inj :
    ∀ (a1 a2 : List Char) {b1 b2 : List Char},
      '-' ∉ a1 → '-' ∉ a2 → a1 ++ '-' :: b1 = a2 ++ '-' :: b2 →
      a1 = a2 ∧ b1 = b2 := by
  intro a1
  induction a1 with
  | nil =>
    intro a2 b1 b2 _ h2 h
    cases a2 with
    | nil =>
      simp only [List.nil_append] at h
      injection h with _ ht
      exact ⟨rfl, ht⟩
    | cons y ys =>
      simp only [List.nil_append, List.cons_append] at h
      injection h with hx _
      exact absurd (by rw [hx]; exact List.mem_cons_self y ys) h2
  | cons x xs ih =>
    intro a2 b1 b2 h1 h2 h
    cases a2 with
    | nil =>
      simp only [List.nil_append, List.cons_append] at h
      injection h with hx _
      exact absurd (by rw [← hx]; exact List.mem_cons_self x xs) h1
    | cons y ys =>
      simp only [List.cons_append] at h
      injection h with hx ht
      have h1' : '-' ∉ xs := fun hm => h1 (List.mem_cons_of_mem x hm)
      have h2' : '-' ∉ ys := fun hm => h2 (List.mem_cons_of_mem y hm)
      obtain ⟨he, hb⟩ := ih ys h1' h2' ht
      exact ⟨by rw [hx, he], hb⟩

lemma mk_data (l : List Char) : (String.mk l).data = l := rfl

/-! ### Concrete instances used by witnesses and counterexamples -/

/-- A concrete wrapped backend over the trivial state, whose `createKey`
always succeeds with a fixed record. -/
def unitKms : WrappedKms Unit where
  createKey := fun s _ =>
    (.ok
      { keyId := "backend-key"
        publicJwk :=
          { kty := "OKP", crv := some "Ed25519", x := some "xx", y := none,
            kid := some "backend-key" } }, s)
  getPublicKey := fun s _ => (none, s)
  importKey := fun s o => ({ raw := o.raw }, s)
  deleteKey := fun s _ => (true, s)
  randomBytes := fun s o => (List.replicate o.length 0, s)
  sign := fun s _ => ({ signature := [] }, s)
  verify := fun s _ => ({ verified := true }, s)
  encrypt := fun s _ => ({ encrypted := [] }, s)
  decrypt := fun s _ => ({ data := [] }, s)

/-- A concrete `dp256` instance whose derivation steps always succeed. -/
def constDp256 : DP256 where
  genDerivedMainKeyWithBIP39 := fun _ => .ok (List.replicate 32 1)
  genDomainSpecificKeyPair := fun _ _ _ _ => .ok (List.replicate 32 2)
  getPurePKBytes := fun _ => List.replicate 64 3

/-- An EC/P-256 request carrying `p256Options` with the counter omitted. -/
def p256Opts0 : BIP39CreateKeyOptions :=
  { type := { kty := "EC", crv := some "P-256" }
    p256Options := some { mnemonic := "m", origin := "org", userHandle := "user", counter := none } }

/-- An EC/P-256 request with no `p256Options`. -/
def p256NoOpts : BIP39CreateKeyOptions :=
  { type := { kty := "EC", crv := some "P-256" }, p256Options := none }

/-- An Ed25519 request with no `p256Options`. -/
def okpOpts : BIP39CreateKeyOptions :=
  { type := { kty := "OKP", crv := some "Ed25519" }, p256Options := none }

/-- An EC/P-256 request whose `p256Options` carries the counter `-1`. -/
def negCounterOpts : BIP39CreateKeyOptions :=
  { type := { kty := "EC", crv := some "P-256" }
    p256Options := some { mnemonic := "m", origin := "o", userHandle := "u", counter := some (-1) } }

/-! ### Claims -/

/-- Claim C1: for every `createKey` request of kty `EC` and crv `P-256`
carrying `p256Options` (whose derivation steps succeed), the returned
record has `keyId = "p256-" ++ origin ++ "-" ++ userHandle ++ "-" ++
counter` with the counter defaulting to `0` when omitted, and a public
JWK with kty `EC`, crv `P-256`, `kid` equal to the key id, `x` the
base64url encoding of bytes 0..31 of the derived public key byte string
and `y` that of bytes 32..63. -/
theorem createKey_p256_returns_deterministic_record {σ : Type}
    (kms : WrappedKms σ) (dp256 : DP256) (s : σ)
    (opts : BIP39CreateKeyOptions) (p : DeterministicP256Options)
    (mainKey privateKey : List Nat)
    (hty : opts.type.kty = "EC") (hcrv : opts.type.crv = some "P-256")
    (hp : opts.p256Options = some p)
    (hm : dp256.genDerivedMainKeyWithBIP39 p.mnemonic = .ok mainKey)
    (hd : dp256.genDomainSpecificKeyPair mainKey p.origin p.userHandle
        (p.counter.getD 0) = .ok privateKey) :
    (createKey kms dp256 s opts).1 =
      .ok
        { keyId := "p256-" ++ p.origin ++ "-" ++ p.userHandle ++ "-" ++
            intToString (p.counter.getD 0)
          publicJwk :=
            { kty := "EC"
              crv := some "P-256"
              x := some (String.mk (base64UrlEncode
                ((dp256.getPurePKBytes privateKey).take 32)))
              y := some (String.mk (base64UrlEncode
                (((dp256.getPurePKBytes privateKey).drop 32).take 32)))
              kid := some ("p256-" ++ p.origin ++ "-" ++ p.userHandle ++ "-" ++
                intToString (p.counter.getD 0)) } } := by
  simp [createKey, createDeterministicP256Key, keyIdFor, hty, hcrv, hp, hm, hd]

/-- Witness for C1 at a concrete request and concrete `dp256` functions:
the 64 derived bytes are all `3`, so both halves encode to the same
base64url string, and the omitted counter defaults to `0`. -/
theorem createKey_p256_returns_deterministic_record_witness :
    p256Opts0.type.kty = "EC" ∧
    p256Opts0.p256Options =
      some { mnemonic := "m", origin := "org", userHandle := "user", counter := none } ∧
    (createKey unitKms constDp256 () p256Opts0).1 =
      .ok
        { keyId := "p256-org-user-0"
          publicJwk :=
            { kty := "EC"
              crv := some "P-256"
              x := some "AwMDAwMDAwMDAwMDAwMDAwMDAwMDAwMDAwMDAwMDAwM"
              y := some "AwMDAwMDAwMDAwMDAwMDAwMDAwMDAwMDAwMDAwMDAwM"
              kid := some "p256-org-user-0" } } :=
  ⟨rfl, rfl,
    createKey_p256_returns_deterministic_record unitKms constDp256 () p256Opts0
      { mnemonic := "m", origin := "org", userHandle := "user", counter := none }
      (List.replicate 32 1) (List.replicate 32 2) rfl rfl rfl rfl rfl⟩

/-- Claim C2: two invocations of `createKey` with identical inputs
(backend, `dp256` functions, state, options — hence identical mnemonic
and derivation context) return identical results: same key id, same
public JWK, byte for byte. -/
theorem createKey_two_runs_identical {σ : Type} (kms : WrappedKms σ) (dp256 : DP256)
    (s : σ) (opts : BIP39CreateKeyOptions)
    (r1 r2 : (Except String KmsCreateKeyReturn) × σ × List String)
    (h1 : r1 = createKey kms dp256 s opts)
    (h2 : r2 = createKey kms dp256 s opts) :
    r1 = r2 := by
  rw [h1, h2]

/-- Witness for C2 at a concrete request: the two runs coincide. -/
theorem createKey_two_runs_identical_witness :
    createKey unitKms constDp256 () p256Opts0 = createKey unitKms constDp256 () p256Opts0 :=
  createKey_two_runs_identical unitKms constDp256 () p256Opts0 _ _ rfl rfl

/-- Claim C3 counterexample: an EC/P-256 request without `p256Options` is
not forwarded to the wrapped backend: the wrapper throws the
missing-options error (different from the backend's answer) and invokes
no backend method. -/
theorem createKey_no_context_not_always_forwarded :
    (createKey unitKms constDp256 () p256NoOpts).1 ≠ (unitKms.createKey () p256NoOpts).1 ∧
    (createKey unitKms constDp256 () p256NoOpts).2.2 = [] ∧
    (createKey unitKms constDp256 () p256NoOpts).1 =
      .error "p256Options required for deterministic P-256 key generation" :=
  ⟨fun h => Except.noConfusion h, rfl, rfl⟩

/-- Claim C3 (amended): a request with no `p256Options` whose type is not
EC/P-256 is forwarded unmodified to the wrapped backend and its result is
returned unchanged; an EC/P-256 request without `p256Options` instead
fails with the missing-options error and is not forwarded. -/
theorem createKey_non_p256_forwarded {σ : Type} (kms : WrappedKms σ) (dp256 : DP256)
    (s : σ) (opts : BIP39CreateKeyOptions)
    (_hno : opts.p256Options = none)
    (hnot : ¬(opts.type.kty = "EC" ∧ opts.type.crv = some "P-256")) :
    createKey kms dp256 s opts =
      ((kms.createKey s opts).1, (kms.createKey s opts).2, ["createKey"]) := by
  simp [createKey, hnot]

/-- Witness for the amended C3 at a concrete Ed25519 request. -/
theorem createKey_non_p256_forwarded_witness :
    okpOpts.p256Options = none ∧
    createKey unitKms constDp256 () okpOpts =
      ((unitKms.createKey () okpOpts).1, (unitKms.createKey () okpOpts).2, ["createKey"]) :=
  ⟨rfl, createKey_non_p256_forwarded unitKms constDp256 () okpOpts rfl (by decide)⟩

/-- Claim C4: an EC/P-256 request without `p256Options` fails with the
missing-derivation-context error, the backend state is unchanged and no
backend method is invoked. -/
theorem createKey_p256_missing_options_errors {σ : Type} (kms : WrappedKms σ)
    (dp256 : DP256) (s : σ) (opts : BIP39CreateKeyOptions)
    (hty : opts.type.kty = "EC") (hcrv : opts.type.crv = some "P-256")
    (hno : opts.p256Options = none) :
    createKey kms dp256 s opts =
      (.error "p256Options required for deterministic P-256 key generation", s, []) := by
  simp [createKey, hty, hcrv, hno]

/-- Witness for C4 at the concrete optionless P-256 request. -/
theorem createKey_p256_missing_options_errors_witness :
    p256NoOpts.p256Options = none ∧
    createKey unitKms constDp256 () p256NoOpts =
      (.error "p256Options required for deterministic P-256 key generation", (), []) :=
  ⟨rfl, createKey_p256_missing_options_errors unitKms constDp256 () p256NoOpts rfl rfl rfl⟩

/-- Claim C5 counterexample: with counter `-1` the call is not rejected
with an `InvalidArgument` error: derivation runs and the call succeeds,
interpolating `-1` into the key id. -/
theorem createKey_negative_counter_not_rejected :
    ((createKey unitKms constDp256 () negCounterOpts).1.map fun r => r.keyId) =
      Except.ok "p256-o-u--1" := rfl

/-- Claim C5 (amended): a negative counter is not validated by the
service; it is passed unchanged to the derivation function, and when
derivation succeeds the key is created with the negative counter
interpolated into the key id. -/
theorem createKey_negative_counter_passed_through {σ : Type} (kms : WrappedKms σ)
    (dp256 : DP256) (s : σ) (opts : BIP39CreateKeyOptions)
    (p : DeterministicP256Options) (c : Int) (mainKey privateKey : List Nat)
    (hty : opts.type.kty = "EC") (hcrv : opts.type.crv = some "P-256")
    (hp : opts.p256Options = some p) (hc : p.counter = some c) (_hneg : c < 0)
    (hm : dp256.genDerivedMainKeyWithBIP39 p.mnemonic = .ok mainKey)
    (hd : dp256.genDomainSpecificKeyPair mainKey p.origin p.userHandle c = .ok privateKey) :
    ((createKey kms dp256 s opts).1.map fun r => r.keyId) =
      Except.ok (keyIdFor p.origin p.userHandle c) := by
  simp [createKey, createDeterministicP256Key, Except.map, hty, hcrv, hp, hc, hm, hd]

/-- Witness for the amended C5 at counter `-1`. -/
theorem createKey_negative_counter_passed_through_witness :
    ((-1 : Int) < 0) ∧
    ((createKey unitKms constDp256 () negCounterOpts).1.map fun r => r.keyId) =
      Except.ok (keyIdFor "o" "u" (-1)) :=
  ⟨by decide,
    createKey_negative_counter_passed_through unitKms constDp256 () negCounterOpts
      { mnemonic := "m", origin := "o", userHandle := "u", counter := some (-1) }
      (-1) (List.replicate 32 1) (List.replicate 32 2)
      rfl rfl rfl rfl (by decide) rfl rfl⟩

/-- Claim C6 counterexample: the key-identifier map is not injective over
arbitrary strings: the distinct triples `("a-b", "c", 0)` and
`("a", "b-c", 0)` produce the same identifier `"p256-a-b-c-0"`. -/
theorem keyIdFor_not_injective :
    keyIdFor "a-b" "c" 0 = keyIdFor "a" "b-c" 0 ∧
    ¬("a-b" = "a" ∧ "c" = "b-c" ∧ (0 : Int) = 0) := by
  constructor
  · decide
  · decide

/-- Claim C6 (amended): the key-identifier map is injective over triples
whose origin and user handle contain no `'-'` character, for nonnegative
counters. -/
theorem keyIdFor_injective_of_dash_free (o1 u1 o2 u2 : String) (c1 c2 : Int)
    (ho1 : '-' ∉ o1.data) (hu1 : '-' ∉ u1.data)
    (ho2 : '-' ∉ o2.data) (hu2 : '-' ∉ u2.data)
    (hc1 : 0 ≤ c1) (hc2 : 0 ≤ c2)
    (h : keyIdFor o1 u1 c1 = keyIdFor o2 u2 c2) :
    o1 = o2 ∧ u1 = u2 ∧ c1 = c2 := by
  have hdata : (keyIdFor o1 u1 c1).data = (keyIdFor o2 u2 c2).data := by rw [h]
  unfold keyIdFor intToString at hdata
  rw [if_neg (by omega : ¬c1 < 0), if_neg (by omega : ¬c2 < 0)] at hdata
  have hp : "p256-".data = ['p', '2', '5', '6', '-'] := rfl
  have hs : "-".data = ['-'] := rfl
  simp only [String.data_append, mk_data, hp, hs, List.cons_append, List.nil_append,
    List.append_assoc, List.singleton_append, List.cons.injEq, true_and] at hdata
  obtain ⟨ho, hrest⟩ := append_sep_inj o1.data o2.data ho1 ho2 hdata
  obtain ⟨hu, hc⟩ := append_sep_inj u1.data u2.data hu1 hu2 hrest
  have hcc := natToDigits_inj hc
  exact ⟨String.ext ho, String.ext hu, by omega⟩

/-- Witness for the amended C6 at concrete dash-free inputs. -/
theorem keyIdFor_injective_of_dash_free_witness :
    '-' ∉ ("org" : String).data ∧ '-' ∉ ("user" : String).data ∧
    (("org" : String) = "org" ∧ ("user" : String) = "user" ∧ (0 : Int) = 0) :=
  ⟨by decide, by decide,
    keyIdFor_injective_of_dash_free "org" "user" "org" "user" 0 0
      (by decide) (by decide) (by decide) (by decide) (by decide) (by decide) rfl⟩

/-- Claim C7: every non-create operation of the wrapper is extensionally
equal to the wrapped backend's operation: arguments are passed through
unchanged and the backend's result (and next state) is returned
unchanged. -/
theorem passthrough_ops_equal_backend {σ : Type} (kms : WrappedKms σ) (s : σ)
    (kid : String) (io : KmsImportKeyOptions) (del : KmsDeleteKeyOptions)
    (ro : KmsRandomBytesOptions) (so : KmsSignOptions) (vo : KmsVerifyOptions)
    (eo : KmsEncryptOptions) (dco : KmsDecryptOptions) :
    getPublicKey kms s kid = kms.getPublicKey s kid ∧
    importKey kms s io = kms.importKey s io ∧
    deleteKey kms s del = kms.deleteKey s del ∧
    randomBytes kms s ro = kms.randomBytes s ro ∧
    sign kms s so = kms.sign s so ∧
    verify kms s vo = kms.verify s vo ∧
    encrypt kms s eo = kms.encrypt s eo ∧
    decrypt kms s dco = kms.decrypt s dco :=
  ⟨rfl, rfl, rfl, rfl, rfl, rfl, rfl, rfl⟩

/-- Claim C8: on the deterministic P-256 creation path (EC/P-256 with
`p256Options` present), whether the derivation succeeds or fails, the
backend state is unchanged and no backend method is invoked — the
derived key is never handed to the backend. -/
theorem createKey_p256_no_backend_effect {σ : Type} (kms : WrappedKms σ)
    (dp256 : DP256) (s : σ) (opts : BIP39CreateKeyOptions)
    (p : DeterministicP256Options)
    (hty : opts.type.kty = "EC") (hcrv : opts.type.crv = some "P-256")
    (hp : opts.p256Options = some p) :
    (createKey kms dp256 s opts).2.1 = s ∧ (createKey kms dp256 s opts).2.2 = [] := by
  simp [createKey, hty, hcrv, hp]

/-- Witness for C8 at a concrete deterministic request. -/
theorem createKey_p256_no_backend_effect_witness :
    p256Opts0.type.kty = "EC" ∧
    ((createKey unitKms constDp256 () p256Opts0).2.1 = () ∧
      (createKey unitKms constDp256 () p256Opts0).2.2 = []) :=
  ⟨rfl,
    createKey_p256_no_backend_effect unitKms constDp256 () p256Opts0
      { mnemonic := "m", origin := "org", userHandle := "user", counter := none }
      rfl rfl rfl⟩

/-- Claim C9: `supportsKeyType` and `isOperationSupported` return `true`
for every input, whatever the wrapped backend. -/
theorem supports_everything {σ : Type} (kms : WrappedKms σ) (t : KmsCreateKeyType)
    (op : String) :
    supportsKeyType kms t = true ∧ isOperationSupported kms op = true :=
  ⟨rfl, rfl⟩

/-- Claim C10: the service's backend identifier is the constant
`"BIP39P256"`, independent of the wrapped backend. -/
theorem backendName_is_constant {σ1 σ2 : Type} (kms1 : WrappedKms σ1)
    (kms2 : WrappedKms σ2) :
    backendName kms1 = "BIP39P256" ∧ backendName kms1 = backendName kms2 :=
  ⟨rfl, rfl⟩

end Credo.BIP39
